import Mathlib

/-!
Verification development for the guriraline_server backend: a shallow
embedding of its route handlers (user and shop account management, product
schema validation, admin listing/deletion) together with proofs about the
request/response contract.

Sources embedded:
- `src/controller/shop.js` (shop router: create-shop, activation, login-shop,
  sendShopToken, admin-all-sellers, delete-seller, ...)
- `src/unnamed/part_000` (mongoose Product schema with the `arrayLimit`
  image-count validator)
- `src/unnamed/part_001` (user router: create-user, activation, login-user,
  update-user-info, admin-all-users, delete-user, forgot/reset password)
- `src/unnamed/part_002` (the `sendToken` cookie helper, `sameSite: "none"`
  variant)

External collaborators (password hashing, jwt library, cloudinary, the
express error middleware) are modelled from their documented interfaces,
as the spec prescribes; each such definition is marked in its doc comment.
All times are in milliseconds since epoch.
-/

namespace Guriraline

/-- An opaque-id + URL pair, the shape cloudinary returns and the shape
stored in `avatar` fields and in `Product.images` entries. -/
structure MediaRef where
  public_id : String
  url : String
deriving Repr, DecidableEq

/-- A persisted User document (the mongoose model `../model/user` is not in
`src/`; fields follow the spec's data model: name, unique email, password
hash, avatar, phone number, address, role, creation timestamp, opaque id). -/
structure UserDoc where
  id : Nat
  name : String
  email : String
  password : String
  avatar : MediaRef
  phoneNumber : String
  address : String
  role : String
  createdAt : Nat
deriving Repr, DecidableEq

/-- A persisted Shop document (the mongoose model `../model/shop` is not in
`src/`; fields follow the spec's data model, including the `isActivated`
flag gating login and the nullable withdrawal-method descriptor). -/
structure ShopDoc where
  id : Nat
  name : String
  email : String
  password : String
  avatar : MediaRef
  address : String
  phoneNumber : String
  zipCode : String
  description : String
  isActivated : Bool
  withdrawMethod : Option String
  createdAt : Nat
deriving Repr, DecidableEq

/-- Modelled from the spec: the Credential Service "hashes passwords at
write time". The concrete codec is irrelevant to the claims; what matters
is that comparison succeeds exactly on the preimage used at write time. -/
def hashPassword (plain : String) : String :=
  "hashed:" ++ plain

/-- Modelled from the spec: the Credential Service "compares plaintext to
hash at login time" (the `comparePassword` method of the absent mongoose
models). -/
def comparePassword (plain stored : String) : Bool :=
  hashPassword plain == stored

/-- Modelled from the spec: the Media Service "stores/retrieves/deletes
images by opaque id, returns a public URL" — the result of
`cloudinary.uploader.upload(data, \x7bfolder\x7d)` as a deterministic
function of its inputs. -/
def cloudinaryUploadResult (data folder : String) : MediaRef :=
  { public_id := folder ++ "/" ++ data
    url := "https://res.cloudinary.com/" ++ folder ++ "/" ++ data }

/-- Modelled from the spec: `user.getJwtToken()` of the absent user model —
a signed session token identifying the subject. -/
def getJwtToken (u : UserDoc) : String :=
  "session-user-" ++ toString u.id

/-- Modelled from the spec: `seller.generateToken()` of the absent shop
model — a signed session token identifying the subject. -/
def generateToken (s : ShopDoc) : String :=
  "session-shop-" ++ toString s.id

/-- The two error classes thrown by the jsonwebtoken library's `verify`:
`JsonWebTokenError` (bad signature / malformed token) and its subclass
`TokenExpiredError`, whose `name` property is "TokenExpiredError", not
"JsonWebTokenError". -/
inductive JwtError where
  | jsonWebTokenError
  | tokenExpiredError
deriving Repr, DecidableEq

/-- The `name` property of the thrown error object. -/
def jwtErrorName : JwtError → String
  | .jsonWebTokenError => "JsonWebTokenError"
  | .tokenExpiredError => "TokenExpiredError"

/-- The `message` property of the thrown error object. -/
def jwtErrorMessage : JwtError → String
  | .jsonWebTokenError => "invalid signature"
  | .tokenExpiredError => "jwt expired"

/-- A signed token as the jsonwebtoken library presents it: a payload, the
secret it was signed with, an absolute expiry, and whether the signature is
still intact (`intact := false` models a tampered token). -/
structure Jwt (α : Type) where
  payload : α
  secret : String
  expiresAt : Nat
  intact : Bool
deriving Repr, DecidableEq

/-- `jwt.sign(payload, secret, \x7bexpiresIn\x7d)`. -/
def jwtSign {α : Type} (payload : α) (secret : String) (now expiresIn : Nat) : Jwt α :=
  { payload := payload, secret := secret, expiresAt := now + expiresIn, intact := true }

/-- `jwt.verify(token, secret)` at the current time: throws
`JsonWebTokenError` on a tampered token or wrong secret, then
`TokenExpiredError` once the expiry has passed, else returns the payload. -/
def jwtVerify {α : Type} (tok : Jwt α) (secret : String) (now : Nat) : Except JwtError α :=
  if tok.intact = false || tok.secret != secret then .error .jsonWebTokenError
  else if tok.expiresAt ≤ now then .error .tokenExpiredError
  else .ok tok.payload

/-- An HTTP cookie as set by `res.cookie(name, value, options)`. -/
structure Cookie where
  name : String
  value : String
  expiresAt : Nat
  httpOnly : Bool
  sameSite : String
  secure : Bool
deriving Repr, DecidableEq

/-- The JSON response of a handler, together with any cookies set on it.
Only the fields some handler actually emits are represented; absent fields
are `none`. -/
structure HttpResponse where
  status : Nat
  success : Bool
  message : Option String := none
  user : Option UserDoc := none
  seller : Option ShopDoc := none
  users : Option (List UserDoc) := none
  sellers : Option (List ShopDoc) := none
  token : Option String := none
  cookies : List Cookie := []
deriving Repr, DecidableEq

/-- `next(new ErrorHandler(message, status))` rendered through the error
middleware. Modelled from the spec: "All error responses: JSON
`\x7bsuccess:false, message\x7d` with an HTTP status carried from the error
kind." -/
def errResp (status : Nat) (message : String) : HttpResponse :=
  { status := status, success := false, message := some message }

/-- A plain `res.status(s).json(\x7bsuccess: true, message\x7d)` response. -/
def okMsg (status : Nat) (message : String) : HttpResponse :=
  { status := status, success := true, message := some message }

/-- Observable calls made to the external Media and Notification services
during a handler run, in order. -/
inductive Effect where
  | cloudinaryUpload (data : String) (folder : String)
  | cloudinaryDestroy (publicId : String)
  | mailSent (email : String) (subject : String)
deriving Repr, DecidableEq

/-- The parts of the express request object the `sendToken` helper reads:
`req.secure` and `req.headers['x-forwarded-proto']`. -/
structure ReqCtx where
  secure : Bool
  xForwardedProto : Option String
deriving Repr, DecidableEq

/-- `Model.findOne(\x7bemail\x7d)` on the user collection: first document
matching the email. -/
def findOneUserByEmail (db : List UserDoc) (email : String) : Option UserDoc :=
  db.find? (fun v => v.email == email)

/-- `Shop.findOne(\x7bemail\x7d)`: first document matching the email. -/
def findOneShopByEmail (db : List ShopDoc) (email : String) : Option ShopDoc :=
  db.find? (fun v => v.email == email)

/-- `User.findById(id)`. -/
def findUserById (db : List UserDoc) (id : Nat) : Option UserDoc :=
  db.find? (fun v => v.id == id)

/-- `Shop.findById(id)`. -/
def findShopById (db : List ShopDoc) (id : Nat) : Option ShopDoc :=
  db.find? (fun v => v.id == id)

/-- `doc.save()` for a user document: the store's per-document replace by
id. -/
def saveUser (db : List UserDoc) (u : UserDoc) : List UserDoc :=
  db.map (fun v => if v.id == u.id then u else v)

/-- `doc.save()` for a shop document: the store's per-document replace by
id. -/
def saveShop (db : List ShopDoc) (s : ShopDoc) : List ShopDoc :=
  db.map (fun v => if v.id == s.id then s else v)

/-- The payload signed by `createActivationToken(\x7bid, email\x7d)` in
`src/controller/shop.js` and expected (for its `email` field) by both the
`/create-shop` and the shop `/activation` handlers. -/
structure ShopActPayload where
  id : Nat
  email : String
deriving Repr, DecidableEq

/-- The payload signed by `createToken(user)` in `src/unnamed/part_001`:
`\x7buser: \x7bname, email, password, avatar, ...\x7d\x7d`. The optional
`id` is the `_id` present when a persisted document is wrapped (the
forgot/reset-password flow) and absent for the pending-registration record
wrapped by `/create-user`. -/
structure UserWrapPayload where
  name : String
  email : String
  password : String
  avatar : MediaRef
  id : Option Nat
deriving Repr, DecidableEq

/-- `createActivationToken` of `src/controller/shop.js`: signs with the
activation secret, `expiresIn: "10m"` (600000 ms). -/
def createActivationToken (payload : ShopActPayload) (secret : String) (now : Nat) :
    Jwt ShopActPayload :=
  jwtSign payload secret now 600000

/-- `createToken` of `src/unnamed/part_001`: signs with the activation
secret, `expiresIn: '10m'` (600000 ms). -/
def createToken (payload : UserWrapPayload) (secret : String) (now : Nat) :
    Jwt UserWrapPayload :=
  jwtSign payload secret now 600000

/-- The request body of `POST /create-user`; a missing field arrives as the
empty string (falsy, as the handler's `!name || !email || ...` check
treats it). -/
structure CreateUserReq where
  name : String
  email : String
  password : String
  avatar : String
deriving Repr, DecidableEq

/-- `POST /create-user` (`src/unnamed/part_001` lines 21-74): validates
required fields, checks email uniqueness, uploads the avatar, then embeds
the candidate record in a signed token and emails the activation link —
it persists nothing. Returns (response, user collection, external calls). -/
def createUser (req : CreateUserReq) (db : List UserDoc) :
    HttpResponse × List UserDoc × List Effect :=
  if req.name == "" || req.email == "" || req.password == "" || req.avatar == "" then
    (errResp 400 "Missing required fields", db, [])
  else
    match findOneUserByEmail db req.email with
    | some _ => (errResp 400 "User already exists", db, [])
    | none =>
      (okMsg 201 ("Please check your email (" ++ req.email ++ ") to activate your account!"),
       db,
       [Effect.cloudinaryUpload req.avatar "avatars",
        Effect.mailSent req.email "Activate your account"])

/-- The user document built by `User.create(\x7bname, email, avatar,
password\x7d)` in the user `/activation` handler: password hashed at write
time, defaults for the unsupplied fields, `createdAt` stamped now. -/
def activatedUser (p : UserWrapPayload) (freshId now : Nat) : UserDoc :=
  { id := freshId
    name := p.name
    email := p.email
    password := hashPassword p.password
    avatar := p.avatar
    phoneNumber := ""
    address := ""
    role := "user"
    createdAt := now }

/-- `sendToken` (`src/unnamed/part_002`): issues the session token, sets it
as the cookie named "token" with `httpOnly`, `expires = now + 90 days`,
`sameSite: "none"`, `secure` derived from `req.secure` or the
`x-forwarded-proto` header, and returns `\x7bsuccess, user, token\x7d`.
`req? = none` models the call sites that pass only three arguments, where
reading `req.secure` throws a TypeError. -/
def sendToken (user : UserDoc) (statusCode : Nat) (req? : Option ReqCtx) (now : Nat) :
    Except String HttpResponse :=
  let token := getJwtToken user
  match req? with
  | none => .error "Cannot read properties of undefined (reading 'secure')"
  | some req =>
    let isSecure := req.secure || req.xForwardedProto == some "https"
    .ok { status := statusCode
          success := true
          user := some user
          token := some token
          cookies := [{ name := "token"
                        value := token
                        expiresAt := now + 90 * 24 * 60 * 60 * 1000
                        httpOnly := true
                        sameSite := "none"
                        secure := isSecure }] }

/-- `POST /activation` for users (`src/unnamed/part_001` lines 77-116):
verifies the token (any verification error reaches the catch-all and is
rendered with status 500), rejects when the embedded email is already
persisted, otherwise creates the account and calls `sendToken(user, 201,
res)` — with the fourth (`req`) argument omitted at the call site. -/
def userActivation (tok? : Option (Jwt UserWrapPayload)) (db : List UserDoc)
    (secret : String) (now freshId : Nat) : HttpResponse × List UserDoc :=
  match tok? with
  | none => (errResp 400 "Activation token is missing", db)
  | some tok =>
    match jwtVerify tok secret now with
    | .error e => (errResp 500 (jwtErrorMessage e), db)
    | .ok p =>
      match findOneUserByEmail db p.email with
      | some _ => (errResp 400 "User already exists", db)
      | none =>
        let user := activatedUser p freshId now
        match sendToken user 201 none now with
        | .ok r => (r, db ++ [user])
        | .error msg => (errResp 500 msg, db ++ [user])

/-- `POST /login-user` (`src/unnamed/part_001` lines 119-146): missing
fields, then `findOne` by email, then `comparePassword`, then
`sendToken(user, 201, res)` — again without the `req` argument. -/
def loginUser (email password : String) (db : List UserDoc) (now : Nat) :
    HttpResponse × List UserDoc :=
  if email == "" || password == "" then
    (errResp 400 "Please fill all fields!", db)
  else
    match findOneUserByEmail db email with
    | none => (errResp 400 "User doesn't exist!", db)
    | some user =>
      if comparePassword password user.password = false then
        (errResp 400 "Invalid password!", db)
      else
        match sendToken user 201 none now with
        | .ok r => (r, db)
        | .error msg => (errResp 500 msg, db)

/-- `PUT /update-user-info` (`src/unnamed/part_001` lines 192-225): behind
`isAuthenticated` (so `callerId` is the id embedded in the session token),
but the handler looks the account up by the request body's email, verifies
the body's password against that account, and mutates that account. -/
def updateUserInfo (callerId : Nat) (email password phoneNumber name : String)
    (db : List UserDoc) : HttpResponse × List UserDoc :=
  match findOneUserByEmail db email with
  | none => (errResp 400 "User not found", db)
  | some user =>
    if comparePassword password user.password = false then
      (errResp 400 "Invalid password!", db)
    else
      let u := { user with name := name, email := email, phoneNumber := phoneNumber }
      ({ status := 200, success := true, user := some u }, saveUser db u)

/-- `GET /admin-all-users` result list: `User.find().sort(\x7bcreatedAt:
-1\x7d)` — every document, ordered by creation timestamp descending. -/
def userByCreatedAtDesc (a b : UserDoc) : Prop :=
  b.createdAt ≤ a.createdAt

instance : DecidableRel userByCreatedAtDesc :=
  fun a b => Nat.decLe b.createdAt a.createdAt

instance : IsTotal UserDoc userByCreatedAtDesc :=
  ⟨fun a b => (Nat.le_total b.createdAt a.createdAt).imp id id⟩

instance : IsTrans UserDoc userByCreatedAtDesc :=
  ⟨fun _ _ _ h1 h2 => Nat.le_trans h2 h1⟩

/-- `Shop.find().sort(\x7bcreatedAt: -1\x7d)` ordering. -/
def shopByCreatedAtDesc (a b : ShopDoc) : Prop :=
  b.createdAt ≤ a.createdAt

instance : DecidableRel shopByCreatedAtDesc :=
  fun a b => Nat.decLe b.createdAt a.createdAt

instance : IsTotal ShopDoc shopByCreatedAtDesc :=
  ⟨fun a b => (Nat.le_total b.createdAt a.createdAt).imp id id⟩

instance : IsTrans ShopDoc shopByCreatedAtDesc :=
  ⟨fun _ _ _ h1 h2 => Nat.le_trans h2 h1⟩

/-- The list `GET /admin-all-users` responds with. -/
def adminAllUsersList (db : List UserDoc) : List UserDoc :=
  List.insertionSort userByCreatedAtDesc db

/-- `GET /admin-all-users` (`src/unnamed/part_001` lines 306-321), the
handler body behind the `isAuthenticated` and `isAdmin("Admin")` gates. -/
def adminAllUsers (db : List UserDoc) : HttpResponse :=
  { status := 200, success := true, users := some (adminAllUsersList db) }

/-- The list `GET /admin-all-sellers` responds with. -/
def adminAllSellersList (db : List ShopDoc) : List ShopDoc :=
  List.insertionSort shopByCreatedAtDesc db

/-- `GET /admin-all-sellers` (`src/controller/shop.js` lines 361-379). -/
def adminAllSellers (db : List ShopDoc) : HttpResponse :=
  { status := 200, success := true, sellers := some (adminAllSellersList db) }

/-- `DELETE /delete-user/:id` (`src/unnamed/part_001` lines 324-351):
404 when the account is missing; otherwise destroys the avatar's
cloudinary object by its stored `public_id`, then deletes the document. -/
def deleteUser (id : Nat) (db : List UserDoc) :
    HttpResponse × List UserDoc × List Effect :=
  match findUserById db id with
  | none => (errResp 404 "User not found", db, [])
  | some user =>
    (okMsg 200 "User deleted successfully!",
     (db.filter (fun v => v.id != id)),
     [Effect.cloudinaryDestroy user.avatar.public_id])

/-- `DELETE /delete-seller/:id` (`src/controller/shop.js` lines 382-400):
`Shop.findByIdAndDelete(req.params.id)` and a success message — no
existence check and no media-service call. -/
def deleteSeller (id : Nat) (db : List ShopDoc) :
    HttpResponse × List ShopDoc × List Effect :=
  (okMsg 200 "Seller deleted successfully", (db.filter (fun v => v.id != id)), [])

/-- `POST /reset-password` (`src/unnamed/part_001` lines 392-427): requires
token and new password, verifies the token (any verification error reaches
the catch-all and is rendered with status 500), loads the embedded
account's `_id`, overwrites the password (hashed at write time). -/
def resetPassword (tok? : Option (Jwt UserWrapPayload)) (newPassword : String)
    (db : List UserDoc) (secret : String) (now : Nat) : HttpResponse × List UserDoc :=
  match tok? with
  | none => (errResp 400 "Token and new password are required", db)
  | some tok =>
    if newPassword == "" then (errResp 400 "Token and new password are required", db)
    else
      match jwtVerify tok secret now with
      | .error e => (errResp 500 (jwtErrorMessage e), db)
      | .ok p =>
        match p.id with
        | none => (errResp 404 "User not found", db)
        | some uid =>
          match findUserById db uid with
          | none => (errResp 404 "User not found", db)
          | some user =>
            (okMsg 200 "Password has been reset successfully",
             saveUser db { user with password := hashPassword newPassword })

/-- The request body of `POST /create-shop`. -/
structure CreateShopReq where
  name : String
  email : String
  password : String
  avatar : String
  address : String
  phoneNumber : String
  zipCode : String
  activation_token : Option (Jwt ShopActPayload)
deriving Repr, DecidableEq

/-- The seller document built and saved by `/create-shop`: `new
Shop(\x7b...\x7d)` with the uploaded avatar; password hashed and
`isActivated` defaulted to `false` at write time (the shop model is not in
`src/`; the default follows the spec's lifecycle: activation transitions
the flag false to true). -/
def newShop (req : CreateShopReq) (freshId now : Nat) : ShopDoc :=
  { id := freshId
    name := req.name
    email := req.email
    password := hashPassword req.password
    avatar := cloudinaryUploadResult req.avatar "avatars"
    address := req.address
    phoneNumber := req.phoneNumber
    zipCode := req.zipCode
    description := ""
    isActivated := false
    withdrawMethod := none
    createdAt := now }

/-- `POST /create-shop` (`src/controller/shop.js` lines 19-99): requires an
activation token, verifies it (a `JsonWebTokenError` from `jwt.verify` is
rendered as 400 "Invalid token", any other throw — including
`TokenExpiredError` — as 500 with the error's message), rejects when the
token's embedded email differs from the body's email, checks email
uniqueness, uploads the avatar, persists the seller, and emails a fresh
activation link. -/
def createShop (req : CreateShopReq) (db : List ShopDoc) (secret : String)
    (now freshId : Nat) : HttpResponse × List ShopDoc × List Effect :=
  match req.activation_token with
  | none => (errResp 400 "Activation token is missing", db, [])
  | some tok =>
    match jwtVerify tok secret now with
    | .error .jsonWebTokenError => (errResp 400 "Invalid token", db, [])
    | .error e => (errResp 500 (jwtErrorMessage e), db, [])
    | .ok decoded =>
      if req.email != decoded.email then
        (errResp 400 "Invalid activation token", db, [])
      else
        match findOneShopByEmail db req.email with
        | some _ => (errResp 400 "User already exists", db, [])
        | none =>
          let seller := newShop req freshId now
          (okMsg 201 ("Please check your email: " ++ seller.email ++ " to activate your shop!"),
           db ++ [seller],
           [Effect.cloudinaryUpload req.avatar "avatars",
            Effect.mailSent seller.email "Activate your Shop"])

/-- `POST /activation` for shops (`src/controller/shop.js` lines 109-160):
verifies the token (`JsonWebTokenError` renders as 400 "Invalid token",
`TokenExpiredError` reaches the catch-all as 500), finds the seller by the
embedded email, 404 when absent, 400 when already activated, else flips
`isActivated` and saves. -/
def shopActivation (tok? : Option (Jwt ShopActPayload)) (db : List ShopDoc)
    (secret : String) (now : Nat) : HttpResponse × List ShopDoc :=
  match tok? with
  | none => (errResp 400 "Activation token is missing", db)
  | some tok =>
    match jwtVerify tok secret now with
    | .error .jsonWebTokenError => (errResp 400 "Invalid token", db)
    | .error e => (errResp 500 (jwtErrorMessage e), db)
    | .ok p =>
      match findOneShopByEmail db p.email with
      | none => (errResp 404 "User not found", db)
      | some seller =>
        if seller.isActivated then (errResp 400 "Account is already activated", db)
        else
          (okMsg 200 "Account activated successfully!",
           saveShop db { seller with isActivated := true })

/-- `sendShopToken` (`src/controller/shop.js` lines 204-210): issues the
session token and responds `\x7bsuccess, token\x7d` — no cookie is set and
the seller document is not included. -/
def sendShopToken (seller : ShopDoc) (statusCode : Nat) : HttpResponse :=
  { status := statusCode, success := true, token := some (generateToken seller) }

/-- `POST /login-shop` (`src/controller/shop.js` lines 163-201): missing
fields, then `findOne` by email, then `comparePassword`, then the
`isActivated` gate, then `sendShopToken(seller, 200, res)`. -/
def loginShop (email password : String) (db : List ShopDoc) :
    HttpResponse × List ShopDoc :=
  if email == "" || password == "" then
    (errResp 400 "Please provide all fields!", db)
  else
    match findOneShopByEmail db email with
    | none => (errResp 400 "User doesn't exist!", db)
    | some seller =>
      if comparePassword password seller.password = false then
        (errResp 400 "Please provide the correct information", db)
      else if seller.isActivated = false then
        (errResp 400 "Account is not activated", db)
      else
        (sendShopToken seller 200, db)

/-- One entry of `productSchema.images` (`src/unnamed/part_000`): an
opaque-id + URL pair, both subfields required. -/
abbrev ProductImage := MediaRef

/-- One entry of `productSchema.reviews`; the reviewer snapshot is an
untyped `Object` in the schema, kept opaque here. -/
structure ProductReview where
  user : String
  rating : Option Int
  comment : String
  productId : String
  createdAt : Nat
deriving Repr, DecidableEq

/-- A Product document as described by `productSchema`
(`src/unnamed/part_000`). Optional number fields model the absence of
`required` on them; the `shop` snapshot is an untyped `Object` in the
schema, kept opaque here. -/
structure Product where
  name : String
  description : String
  category : String
  tags : String
  originalPrice : Option Int
  discountPrice : Option Int
  stock : Option Int
  images : List ProductImage
  reviews : List ProductReview
  ratings : Option Int
  shopId : String
  shop : String
  sold_out : Int
  beneficiaries : String
  createdAt : Nat
deriving Repr, DecidableEq

/-- `arrayLimit` (`src/unnamed/part_000` lines 91-93): the custom validator
on `productSchema.images`. -/
def arrayLimit (val : List ProductImage) : Bool :=
  val.length == 5

/-- Mongoose validation of a Product document at creation: every `required`
field present (a required String rejects the empty string), the
`beneficiaries` enum, the required subfields of each image, and the
`arrayLimit` validator on `images`. -/
def validateProduct (p : Product) : Bool :=
  p.name != "" && p.description != "" && p.category != "" &&
  p.discountPrice.isSome && p.stock.isSome &&
  p.shopId != "" && p.shop != "" &&
  (["men", "women", "kids", "not specified"].contains p.beneficiaries) &&
  p.images.all (fun i => i.public_id != "" && i.url != "") &&
  arrayLimit p.images

/-! Helper lemmas about the store model. -/

/-- `find?` skips over a prefix in which nothing matches. -/
theorem find?_append_of_none {α : Type} (p : α → Bool) (l₁ l₂ : List α)
    (h : l₁.find? p = none) : (l₁ ++ l₂).find? p = l₂.find? p := by
  induction l₁ with
  | nil => rfl
  | cons a t ih =>
    rcases hpa : p a with _ | _
    · rw [List.find?_cons_of_neg _ (by simp [hpa])] at h
      rw [List.cons_append, List.find?_cons_of_neg _ (by simp [hpa])]
      exact ih h
    · rw [List.find?_cons_of_pos _ hpa] at h
      exact absurd h (by simp)

/-- Appending a matching document to a collection with no match makes it
the `find?` result. -/
theorem find?_append_singleton {α : Type} (p : α → Bool) (l : List α) (u : α)
    (h : l.find? p = none) (hu : p u = true) : (l ++ [u]).find? p = some u := by
  rw [find?_append_of_none p l [u] h, List.find?_cons_of_pos _ hu]

/-- After `saveShop db s2` where `s2` carries the id and email of the
document `find?`-matched by email in `db`, the lookup by that email finds
`s2`. -/
theorem find?_saveShop_email (db : List ShopDoc) (s s2 : ShopDoc) (e : String)
    (hfind : db.find? (fun v => v.email == e) = some s)
    (hid : s2.id = s.id) (hemail : s2.email = s.email) :
    (saveShop db s2).find? (fun v => v.email == e) = some s2 := by
  have hse : (s.email == e) = true := by
    have h := List.find?_some hfind
    simpa using h
  have hs2e : (s2.email == e) = true := by rw [hemail]; exact hse
  induction db with
  | nil => simp [List.find?] at hfind
  | cons a t ih =>
    have step : saveShop (a :: t) s2 = (if a.id == s2.id then s2 else a) :: saveShop t s2 := rfl
    rw [step]
    rcases hpa : (a.email == e) with _ | _
    · have hfind2 : List.find? (fun v => v.email == e) t = some s := by
        have h1 : List.find? (fun v => v.email == e) (a :: t)
            = List.find? (fun v => v.email == e) t :=
          List.find?_cons_of_neg _ (by simp [hpa])
        rw [h1] at hfind
        exact hfind
      rcases hida : (a.id == s2.id) with _ | _
      · rw [if_neg (by simp [hida])]
        have h2 : List.find? (fun v => v.email == e) (a :: saveShop t s2)
            = List.find? (fun v => v.email == e) (saveShop t s2) :=
          List.find?_cons_of_neg _ (by simp [hpa])
        rw [h2]
        exact ih hfind2
      · rw [if_pos (by simp [hida])]
        exact List.find?_cons_of_pos _ hs2e
    · have ha : a = s := by
        have h1 : List.find? (fun v => v.email == e) (a :: t) = some a :=
          List.find?_cons_of_pos _ hpa
        rw [h1] at hfind
        exact Option.some.inj hfind
      rw [if_pos (by simp [ha, hid])]
      exact List.find?_cons_of_pos _ hs2e

/-!
C1. Spec claim: a registration request (`/create-user` or `/create-shop`)
whose email equals the email of an account already persisted in the
corresponding collection fails with 400 "User already exists" and no new
account is created; and for all valid registration payloads a second
registration with the same email fails this way.

The first half holds for both handlers. The second half fails for
`/create-user`: that handler persists nothing (the candidate record lives
only inside the emailed activation token), so a second `/create-user` with
the same email succeeds again as long as the first was not activated. For
`/create-shop`, which persists immediately, a second registration does fail
with "User already exists".
-/

/-- Registration payload used by the C1 counterexample. -/
def c1Req : CreateUserReq :=
  { name := "Alice", email := "a@x.com", password := "p", avatar := "imgdata" }

/-- C1 counterexample: a valid `/create-user` registration succeeds (201),
and repeating the identical registration against the resulting store
succeeds again (201) rather than failing with "User already exists",
because `/create-user` persists no account. -/
theorem c1_second_user_registration_succeeds :
    (createUser c1Req []).1.status = 201 ∧
    (createUser c1Req ((createUser c1Req ([] : List UserDoc)).2.1)).1.status = 201 ∧
    (createUser c1Req ((createUser c1Req ([] : List UserDoc)).2.1)).1.message
      ≠ some "User already exists" := by
  decide

/-- C1 (amended): a registration whose email matches an already persisted
account fails with 400 "User already exists" and changes nothing — for
`/create-user` whenever the required fields are present, for `/create-shop`
once its activation-token checks pass. A second `/create-shop` with the
same email fails this way because `/create-shop` persists the seller
immediately; a valid `/create-user` with a fresh email responds 201 while
leaving the collection unchanged, so a second `/create-user` with the same
email does not fail until the first registration has been activated. -/
theorem c1_duplicate_email_registration
    (ur ur2 : CreateUserReq) (udb udb2 : List UserDoc) (uex : UserDoc)
    (sr : CreateShopReq) (sdb : List ShopDoc) (sex : ShopDoc)
    (sfr sr2 : CreateShopReq) (sfdb : List ShopDoc)
    (secret : String) (now now2 freshId freshId2 : Nat)
    (tok tokf tok2 : Jwt ShopActPayload) (p pf p2 : ShopActPayload)
    (hu1 : ur.name ≠ "") (hu2 : ur.email ≠ "") (hu3 : ur.password ≠ "")
    (hu4 : ur.avatar ≠ "")
    (hu5 : findOneUserByEmail udb ur.email = some uex)
    (hv1 : ur2.name ≠ "") (hv2 : ur2.email ≠ "") (hv3 : ur2.password ≠ "")
    (hv4 : ur2.avatar ≠ "")
    (hv5 : findOneUserByEmail udb2 ur2.email = none)
    (hs1 : sr.activation_token = some tok)
    (hs2 : jwtVerify tok secret now = .ok p)
    (hs3 : sr.email = p.email)
    (hs4 : findOneShopByEmail sdb sr.email = some sex)
    (hf1 : sfr.activation_token = some tokf)
    (hf2 : jwtVerify tokf secret now = .ok pf)
    (hf3 : sfr.email = pf.email)
    (hf4 : findOneShopByEmail sfdb sfr.email = none)
    (hg1 : sr2.activation_token = some tok2)
    (hg2 : jwtVerify tok2 secret now2 = .ok p2)
    (hg3 : sr2.email = p2.email)
    (hg4 : sr2.email = sfr.email) :
    createUser ur udb = (errResp 400 "User already exists", udb, []) ∧
    createUser ur2 udb2
      = (okMsg 201 ("Please check your email (" ++ ur2.email ++ ") to activate your account!"),
         udb2,
         [Effect.cloudinaryUpload ur2.avatar "avatars",
          Effect.mailSent ur2.email "Activate your account"]) ∧
    createShop sr sdb secret now freshId
      = (errResp 400 "User already exists", sdb, []) ∧
    createShop sfr sfdb secret now freshId
      = (okMsg 201 ("Please check your email: " ++ sfr.email ++ " to activate your shop!"),
         sfdb ++ [newShop sfr freshId now],
         [Effect.cloudinaryUpload sfr.avatar "avatars",
          Effect.mailSent sfr.email "Activate your Shop"]) ∧
    createShop sr2 (sfdb ++ [newShop sfr freshId now]) secret now2 freshId2
      = (errResp 400 "User already exists", sfdb ++ [newShop sfr freshId now], []) := by
  have gu : (ur.name == "" || ur.email == "" || ur.password == "" || ur.avatar == "") = false := by
    simp [hu1, hu2, hu3, hu4]
  have gv : (ur2.name == "" || ur2.email == "" || ur2.password == "" || ur2.avatar == "") = false := by
    simp [hv1, hv2, hv3, hv4]
  refine ⟨?_, ?_, ?_, ?_, ?_⟩
  · simp [createUser, gu, hu5]
  · simp [createUser, gv, hv5]
  · have hne : (sr.email != p.email) = false := by simp [hs3]
    simp [createShop, hs1, hs2, hne, hs4]
  · have hne : (sfr.email != pf.email) = false := by simp [hf3]
    simp [createShop, hf1, hf2, hne, hf4, newShop]
  · have hne : (sr2.email != p2.email) = false := by simp [hg3]
    have hfind : findOneShopByEmail (sfdb ++ [newShop sfr freshId now]) sr2.email
        = some (newShop sfr freshId now) := by
      unfold findOneShopByEmail at hf4 ⊢
      refine find?_append_singleton _ _ _ ?_ ?_
      · rw [hg4]; exact hf4
      · show ((newShop sfr freshId now).email == sr2.email) = true
        simp [newShop, hg4]
    simp [createShop, hg1, hg2, hne, hfind]

/-- Persisted user with the email the C1 witness re-registers. -/
def c1wUserEx : UserDoc :=
  { id := 1, name := "Bob", email := "b@x.com", password := "hashed:p"
    avatar := { public_id := "a", url := "u" }, phoneNumber := "", address := ""
    role := "user", createdAt := 0 }

/-- Duplicate-email `/create-user` request for the C1 witness. -/
def c1wUr : CreateUserReq :=
  { name := "Bob", email := "b@x.com", password := "p", avatar := "d" }

/-- Fresh-email `/create-user` request for the C1 witness. -/
def c1wUr2 : CreateUserReq :=
  { name := "Cara", email := "c@x.com", password := "p", avatar := "d" }

/-- Persisted shop with the email the C1 witness re-registers. -/
def c1wShopEx : ShopDoc :=
  { id := 5, name := "S", email := "s@x.com", password := "hashed:p"
    avatar := { public_id := "a", url := "u" }, address := "", phoneNumber := ""
    zipCode := "", description := "", isActivated := false, withdrawMethod := none
    createdAt := 0 }

/-- Valid activation token for the duplicate `/create-shop` request. -/
def c1wTok : Jwt ShopActPayload :=
  { payload := { id := 1, email := "s@x.com" }, secret := "sec", expiresAt := 600000
    intact := true }

/-- Valid activation token for the first fresh `/create-shop` request. -/
def c1wTokF : Jwt ShopActPayload :=
  { payload := { id := 2, email := "t@x.com" }, secret := "sec", expiresAt := 600000
    intact := true }

/-- Valid activation token for the repeated `/create-shop` request. -/
def c1wTok2 : Jwt ShopActPayload :=
  { payload := { id := 3, email := "t@x.com" }, secret := "sec", expiresAt := 600000
    intact := true }

/-- Duplicate-email `/create-shop` request for the C1 witness. -/
def c1wSr : CreateShopReq :=
  { name := "S2", email := "s@x.com", password := "p", avatar := "d", address := ""
    phoneNumber := "", zipCode := "", activation_token := some c1wTok }

/-- First fresh `/create-shop` request for the C1 witness. -/
def c1wSfr : CreateShopReq :=
  { name := "T", email := "t@x.com", password := "p", avatar := "d", address := ""
    phoneNumber := "", zipCode := "", activation_token := some c1wTokF }

/-- Repeated `/create-shop` request (same email) for the C1 witness. -/
def c1wSr2 : CreateShopReq :=
  { name := "T2", email := "t@x.com", password := "q", avatar := "e", address := ""
    phoneNumber := "", zipCode := "", activation_token := some c1wTok2 }

/-- C1 witness: the amended registration statement instantiated on
concrete stores, requests and tokens. -/
theorem c1_duplicate_email_registration_witness :
    createUser c1wUr [c1wUserEx] = (errResp 400 "User already exists", [c1wUserEx], []) ∧
    createUser c1wUr2 ([] : List UserDoc)
      = (okMsg 201 ("Please check your email (" ++ c1wUr2.email ++ ") to activate your account!"),
         ([] : List UserDoc),
         [Effect.cloudinaryUpload c1wUr2.avatar "avatars",
          Effect.mailSent c1wUr2.email "Activate your account"]) ∧
    createShop c1wSr [c1wShopEx] "sec" 0 10
      = (errResp 400 "User already exists", [c1wShopEx], []) ∧
    createShop c1wSfr ([] : List ShopDoc) "sec" 0 10
      = (okMsg 201 ("Please check your email: " ++ c1wSfr.email ++ " to activate your shop!"),
         ([] : List ShopDoc) ++ [newShop c1wSfr 10 0],
         [Effect.cloudinaryUpload c1wSfr.avatar "avatars",
          Effect.mailSent c1wSfr.email "Activate your Shop"]) ∧
    createShop c1wSr2 (([] : List ShopDoc) ++ [newShop c1wSfr 10 0]) "sec" 1 11
      = (errResp 400 "User already exists", ([] : List ShopDoc) ++ [newShop c1wSfr 10 0], []) :=
  c1_duplicate_email_registration c1wUr c1wUr2 [c1wUserEx] ([] : List UserDoc) c1wUserEx
    c1wSr [c1wShopEx] c1wShopEx c1wSfr c1wSr2 ([] : List ShopDoc) "sec" 0 1 10 11
    c1wTok c1wTokF c1wTok2 ⟨1, "s@x.com"⟩ ⟨2, "t@x.com"⟩ ⟨3, "t@x.com"⟩
    (by decide) (by decide) (by decide) (by decide) rfl
    (by decide) (by decide) (by decide) (by decide) rfl
    rfl rfl rfl rfl
    rfl rfl rfl rfl
    rfl rfl rfl rfl

/-!
C2. Spec claim: activation is single-use. For a shop, `/activation`
transitions `isActivated` from false to true exactly once and a second
attempt is rejected with 400 "Account is already activated". For the user
flow the first use of the token creates the account, so a second use of the
same token fails with 400 "User already exists".
-/

/-- C2: single-use activation, both flows. Given a token that verifies to
an unactivated persisted shop, the shop `/activation` handler responds 200
and saves the document with `isActivated := true`; any further token
verifying to the same email against the updated store is rejected with 400
"Account is already activated" and the store is unchanged. Given a token
that verifies to a user payload whose email is not yet persisted, the user
`/activation` handler appends the created account; a second use of the same
token (still verifying) is rejected with 400 "User already exists" and the
store is unchanged. -/
theorem c2_activation_single_use
    (secret : String) (now1 now2 nowU1 nowU2 : Nat)
    (t t2 : Jwt ShopActPayload) (p p2 : ShopActPayload)
    (db : List ShopDoc) (s : ShopDoc)
    (tu : Jwt UserWrapPayload) (pu : UserWrapPayload) (udb : List UserDoc)
    (freshId freshId2 : Nat)
    (h1 : jwtVerify t secret now1 = .ok p)
    (h2 : findOneShopByEmail db p.email = some s)
    (h3 : s.isActivated = false)
    (h4 : jwtVerify t2 secret now2 = .ok p2)
    (h5 : p2.email = p.email)
    (hu1 : jwtVerify tu secret nowU1 = .ok pu)
    (hu2 : findOneUserByEmail udb pu.email = none)
    (hu3 : jwtVerify tu secret nowU2 = .ok pu) :
    shopActivation (some t) db secret now1
      = (okMsg 200 "Account activated successfully!",
         saveShop db { s with isActivated := true }) ∧
    shopActivation (some t2) (saveShop db { s with isActivated := true }) secret now2
      = (errResp 400 "Account is already activated",
         saveShop db { s with isActivated := true }) ∧
    (userActivation (some tu) udb secret nowU1 freshId).2
      = udb ++ [activatedUser pu freshId nowU1] ∧
    userActivation (some tu) (udb ++ [activatedUser pu freshId nowU1]) secret nowU2 freshId2
      = (errResp 400 "User already exists", udb ++ [activatedUser pu freshId nowU1]) := by
  have hfind2 : findOneShopByEmail (saveShop db { s with isActivated := true }) p2.email
      = some { s with isActivated := true } := by
    unfold findOneShopByEmail at h2 ⊢
    rw [h5]
    exact find?_saveShop_email db s _ p.email h2 rfl rfl
  have hufind : findOneUserByEmail (udb ++ [activatedUser pu freshId nowU1]) pu.email
      = some (activatedUser pu freshId nowU1) := by
    unfold findOneUserByEmail at hu2 ⊢
    refine find?_append_singleton _ _ _ hu2 ?_
    show ((activatedUser pu freshId nowU1).email == pu.email) = true
    simp [activatedUser]
  refine ⟨?_, ?_, ?_, ?_⟩
  · simp [shopActivation, h1, h2, h3]
  · simp [shopActivation, h4, hfind2]
  · simp [userActivation, hu1, hu2, sendToken]
  · simp [userActivation, hu3, hufind]

/-- Unactivated shop used by the C2 witness. -/
def c2wShop : ShopDoc :=
  { id := 1, name := "S", email := "s@x.com", password := "hashed:p"
    avatar := { public_id := "a", url := "u" }, address := "", phoneNumber := ""
    zipCode := "", description := "", isActivated := false, withdrawMethod := none
    createdAt := 0 }

/-- First shop activation token for the C2 witness. -/
def c2wTok : Jwt ShopActPayload :=
  { payload := { id := 9, email := "s@x.com" }, secret := "sec", expiresAt := 600000
    intact := true }

/-- Second shop activation token (same email) for the C2 witness. -/
def c2wTok2 : Jwt ShopActPayload :=
  { payload := { id := 8, email := "s@x.com" }, secret := "sec", expiresAt := 600000
    intact := true }

/-- User activation token for the C2 witness. -/
def c2wTokU : Jwt UserWrapPayload :=
  { payload := { name := "A", email := "a@x.com", password := "p"
                 avatar := { public_id := "a", url := "u" }, id := none }
    secret := "sec", expiresAt := 600000, intact := true }

/-- C2 witness: single-use activation instantiated on concrete stores and
tokens. -/
theorem c2_activation_single_use_witness :
    shopActivation (some c2wTok) [c2wShop] "sec" 0
      = (okMsg 200 "Account activated successfully!",
         saveShop [c2wShop] { c2wShop with isActivated := true }) ∧
    shopActivation (some c2wTok2) (saveShop [c2wShop] { c2wShop with isActivated := true }) "sec" 1
      = (errResp 400 "Account is already activated",
         saveShop [c2wShop] { c2wShop with isActivated := true }) ∧
    (userActivation (some c2wTokU) ([] : List UserDoc) "sec" 0 3).2
      = ([] : List UserDoc) ++ [activatedUser c2wTokU.payload 3 0] ∧
    userActivation (some c2wTokU) (([] : List UserDoc) ++ [activatedUser c2wTokU.payload 3 0]) "sec" 1 4
      = (errResp 400 "User already exists",
         ([] : List UserDoc) ++ [activatedUser c2wTokU.payload 3 0]) :=
  c2_activation_single_use "sec" 0 1 0 1 c2wTok c2wTok2 ⟨9, "s@x.com"⟩ ⟨8, "s@x.com"⟩
    [c2wShop] c2wShop c2wTokU c2wTokU.payload ([] : List UserDoc) 3 4
    rfl rfl rfl rfl rfl rfl rfl rfl

/-!
C3. Spec claim: login fails NotFound ("User doesn't exist!") when no
account matches the email; otherwise InvalidCredentials when the hash
comparison fails ("Please provide the correct information" for shops,
"Invalid password!" for users); otherwise, for shops only, NotActivated
("Account is not activated") when the activation flag is unset — applied
in that order.
-/

/-- C3: the login error cases and their order, for both flows. The
invalid-credentials conclusion places no condition on the shop's
activation flag, and the not-activated conclusion requires the password
to compare — exactly the source's check order. Each case is stated
against its own store. -/
theorem c3_login_error_order
    (email password : String) (nowU : Nat)
    (sdb1 sdb2 sdb3 : List ShopDoc) (s2 s3 : ShopDoc)
    (udb1 udb2 : List UserDoc) (u2 : UserDoc)
    (he : email ≠ "") (hp : password ≠ "")
    (hA : findOneShopByEmail sdb1 email = none)
    (hB1 : findOneShopByEmail sdb2 email = some s2)
    (hB2 : comparePassword password s2.password = false)
    (hC1 : findOneShopByEmail sdb3 email = some s3)
    (hC2 : comparePassword password s3.password = true)
    (hC3 : s3.isActivated = false)
    (hD : findOneUserByEmail udb1 email = none)
    (hE1 : findOneUserByEmail udb2 email = some u2)
    (hE2 : comparePassword password u2.password = false) :
    loginShop email password sdb1 = (errResp 400 "User doesn't exist!", sdb1) ∧
    loginShop email password sdb2
      = (errResp 400 "Please provide the correct information", sdb2) ∧
    loginShop email password sdb3 = (errResp 400 "Account is not activated", sdb3) ∧
    loginUser email password udb1 nowU = (errResp 400 "User doesn't exist!", udb1) ∧
    loginUser email password udb2 nowU = (errResp 400 "Invalid password!", udb2) := by
  have g : (email == "" || password == "") = false := by simp [he, hp]
  refine ⟨?_, ?_, ?_, ?_, ?_⟩
  · simp [loginShop, g, hA]
  · simp [loginShop, g, hB1, hB2]
  · simp [loginShop, g, hC1, hC2, hC3]
  · simp [loginUser, g, hD]
  · simp [loginUser, g, hE1, hE2]

/-- Shop (wrong password scenario) for the C3 witness; also usable as the
no-match store is empty. -/
def c3wShopB : ShopDoc :=
  { id := 1, name := "S", email := "s@x.com", password := "hashed:other"
    avatar := { public_id := "a", url := "u" }, address := "", phoneNumber := ""
    zipCode := "", description := "", isActivated := true, withdrawMethod := none
    createdAt := 0 }

/-- Unactivated shop (correct password scenario) for the C3 witness. -/
def c3wShopC : ShopDoc :=
  { id := 2, name := "S2", email := "s@x.com", password := "hashed:p"
    avatar := { public_id := "a", url := "u" }, address := "", phoneNumber := ""
    zipCode := "", description := "", isActivated := false, withdrawMethod := none
    createdAt := 0 }

/-- User (wrong password scenario) for the C3 witness. -/
def c3wUser : UserDoc :=
  { id := 3, name := "A", email := "s@x.com", password := "hashed:other"
    avatar := { public_id := "a", url := "u" }, phoneNumber := "", address := ""
    role := "user", createdAt := 0 }

/-- C3 witness: the login error cases instantiated on concrete stores.
The wrong-password shop is activated, so the invalid-credentials error
takes precedence over any activation consideration. -/
theorem c3_login_error_order_witness :
    loginShop "s@x.com" "p" ([] : List ShopDoc)
      = (errResp 400 "User doesn't exist!", ([] : List ShopDoc)) ∧
    loginShop "s@x.com" "p" [c3wShopB]
      = (errResp 400 "Please provide the correct information", [c3wShopB]) ∧
    loginShop "s@x.com" "p" [c3wShopC]
      = (errResp 400 "Account is not activated", [c3wShopC]) ∧
    loginUser "s@x.com" "p" ([] : List UserDoc) 0
      = (errResp 400 "User doesn't exist!", ([] : List UserDoc)) ∧
    loginUser "s@x.com" "p" [c3wUser] 0 = (errResp 400 "Invalid password!", [c3wUser]) :=
  c3_login_error_order "s@x.com" "p" 0 ([] : List ShopDoc) [c3wShopB] [c3wShopC]
    c3wShopB c3wShopC ([] : List UserDoc) [c3wUser] c3wUser
    (by decide) (by decide) rfl rfl (by decide) rfl (by decide) rfl rfl rfl (by decide)

/-!
C4. Spec claim: every successful login issues a session token, sets it as
an HTTP cookie ("token" for users, "seller_token" for shops, httpOnly,
expiry +90 days) and returns the account document and raw token in the
body.

The code diverges. `sendShopToken` responds `\x7bsuccess, token\x7d` only:
no cookie is ever set on shop login (the "seller_token" cookie exists only
in the logout handler's `clearCookie`) and the seller document is absent
from the body. The user-flow helper `sendToken` does set the "token"
cookie with exactly the claimed attributes, but both of its call sites
(`sendToken(user, 201, res)` in login and activation) omit the fourth
`req` parameter, so evaluating the cookie's `secure` option reads
`undefined.secure`, throws, and the handler answers 500 without setting
any cookie — while the logout handler clears the "token" cookie the login
was supposed to set, marking the omission as a slip. -/

/-- User account for the C4 evaluation (stored hash matches password
"p"). -/
def c4User : UserDoc :=
  { id := 1, name := "Alice", email := "a@x.com", password := "hashed:p"
    avatar := { public_id := "a", url := "u" }, phoneNumber := "", address := ""
    role := "user", createdAt := 0 }

/-- Activated shop account for the C4 evaluation. -/
def c4Shop : ShopDoc :=
  { id := 2, name := "S", email := "s@x.com", password := "hashed:p"
    avatar := { public_id := "a", url := "u" }, address := "", phoneNumber := ""
    zipCode := "", description := "", isActivated := true, withdrawMethod := none
    createdAt := 0 }

/-- C4 evaluation at the failing input: a user login with correct
credentials responds 500 from the TypeError in `sendToken` (no cookie, no
user document, no token); a shop login with correct credentials responds
200 with only the raw token — no cookie and no seller document; and the
`sendToken` helper itself, when given the `req` it expects, would produce
exactly the claimed "token" cookie (httpOnly, expiry 90 days = 7776000000
ms from issuance) with user and token in the body. -/
theorem c4_login_cookie_eval :
    loginUser "a@x.com" "p" [c4User] 0
      = (errResp 500 "Cannot read properties of undefined (reading 'secure')", [c4User]) ∧
    loginShop "s@x.com" "p" [c4Shop]
      = ({ status := 200, success := true, token := some "session-shop-2" }, [c4Shop]) ∧
    (loginShop "s@x.com" "p" [c4Shop]).1.cookies = [] ∧
    (loginShop "s@x.com" "p" [c4Shop]).1.seller = none ∧
    sendToken c4User 201 (some { secure := true, xForwardedProto := none }) 0
      = .ok { status := 201, success := true, user := some c4User
              token := some "session-user-1"
              cookies := [{ name := "token", value := "session-user-1"
                            expiresAt := 7776000000, httpOnly := true
                            sameSite := "none", secure := true }] } :=
  ⟨rfl, rfl, rfl, rfl, rfl⟩

/-!
C5. Spec claim: Product validation accepts a document only when its
`images` array has length exactly 5; any other count is a validation
failure.
-/

/-- C5: a Product that passes validation has exactly 5 images, and a
Product whose image count differs from 5 fails validation. -/
theorem c5_product_images_exactly_five (p : Product) :
    (validateProduct p = true → p.images.length = 5) ∧
    (p.images.length ≠ 5 → validateProduct p = false) := by
  constructor
  · intro h
    unfold validateProduct at h
    simp only [Bool.and_eq_true] at h
    have h5 := h.2
    unfold arrayLimit at h5
    simpa using h5
  · intro h
    rcases hv : validateProduct p with _ | _
    · rfl
    · exfalso
      apply h
      unfold validateProduct at hv
      simp only [Bool.and_eq_true] at hv
      have h5 := hv.2
      unfold arrayLimit at h5
      simpa using h5

/-- One stock product image. -/
def c5Img : ProductImage := { public_id := "products/i", url := "https://img/i" }

/-- A Product with exactly 5 images for the C5 witness. -/
def c5Prod : Product :=
  { name := "Shirt", description := "A shirt", category := "Clothing", tags := ""
    originalPrice := some 10, discountPrice := some 8, stock := some 3
    images := [c5Img, c5Img, c5Img, c5Img, c5Img], reviews := [], ratings := none
    shopId := "shop1", shop := "snapshot", sold_out := 0, beneficiaries := "men"
    createdAt := 0 }

/-- The same Product with only 4 images. -/
def c5Prod4 : Product :=
  { c5Prod with images := [c5Img, c5Img, c5Img, c5Img] }

/-- C5 witness: a valid 5-image product is accepted (hence has length 5),
and the 4-image variant is rejected. -/
theorem c5_product_images_exactly_five_witness :
    c5Prod.images.length = 5 ∧ validateProduct c5Prod4 = false :=
  ⟨(c5_product_images_exactly_five c5Prod).1 (by decide),
   (c5_product_images_exactly_five c5Prod4).2 (by decide)⟩

/-!
C6. Spec claim: both admin deletes (`/delete-user/:id` and
`/delete-seller/:id`) remove the account document and invoke the Media
Service delete with the avatar's stored `public_id`.

The user delete does exactly that. The seller delete only runs
`Shop.findByIdAndDelete` — it never touches the Media Service (and does
not even check existence). -/

/-- Shop with a stored avatar for the C6 counterexample. -/
def c6Shop : ShopDoc :=
  { id := 2, name := "S", email := "s@x.com", password := "hashed:p"
    avatar := { public_id := "avatars/s", url := "u" }, address := "", phoneNumber := ""
    zipCode := "", description := "", isActivated := true, withdrawMethod := none
    createdAt := 0 }

/-- C6 counterexample: deleting a persisted seller removes the document
but performs no Media Service call at all — in particular, no delete of
the avatar's stored `public_id`. -/
theorem c6_delete_seller_no_media_delete :
    (deleteSeller 2 [c6Shop]).2.1 = ([] : List ShopDoc) ∧
    (deleteSeller 2 [c6Shop]).2.2 = ([] : List Effect) ∧
    Effect.cloudinaryDestroy c6Shop.avatar.public_id ∉ (deleteSeller 2 [c6Shop]).2.2 := by
  decide

/-- C6 (amended): `/delete-user/:id` removes the document and calls the
Media Service delete with the avatar's stored `public_id`;
`/delete-seller/:id` removes the document only, with no Media Service
call (and responds 200 whether or not the id exists). -/
theorem c6_delete_account_media_effects
    (id sid : Nat) (udb : List UserDoc) (u : UserDoc) (sdb : List ShopDoc)
    (h : findUserById udb id = some u) :
    deleteUser id udb
      = (okMsg 200 "User deleted successfully!",
         udb.filter (fun v => v.id != id),
         [Effect.cloudinaryDestroy u.avatar.public_id]) ∧
    deleteSeller sid sdb
      = (okMsg 200 "Seller deleted successfully",
         sdb.filter (fun v => v.id != sid), []) := by
  constructor
  · simp [deleteUser, h]
  · rfl

/-- User with a stored avatar for the C6 witness. -/
def c6User : UserDoc :=
  { id := 1, name := "A", email := "a@x.com", password := "hashed:p"
    avatar := { public_id := "avatars/a", url := "u" }, phoneNumber := "", address := ""
    role := "user", createdAt := 0 }

/-- C6 witness: the amended deletion statement instantiated on concrete
stores. -/
theorem c6_delete_account_media_effects_witness :
    deleteUser 1 [c6User]
      = (okMsg 200 "User deleted successfully!",
         ([c6User].filter (fun v => v.id != 1)),
         [Effect.cloudinaryDestroy c6User.avatar.public_id]) ∧
    deleteSeller 7 ([] : List ShopDoc)
      = (okMsg 200 "Seller deleted successfully",
         (([] : List ShopDoc).filter (fun v => v.id != 7)), []) :=
  c6_delete_account_media_effects 1 7 [c6User] c6User ([] : List ShopDoc) rfl

/-!
C7. Spec claim: an expired or tampered token is rejected by both
activation handlers and by the reset handler with InvalidToken, mapped to
HTTP 400.

The code diverges. The jsonwebtoken library throws `TokenExpiredError`
(whose `name` is "TokenExpiredError") for expired tokens, so the shop
activation handler's `error.name === "JsonWebTokenError"` test matches
only tampered tokens: a tampered token yields 400 "Invalid token" but an
expired one falls to the catch-all and yields 500 "jwt expired". The user
activation and reset-password handlers have no token-error test at all —
their `if (!decoded)` 400-branches are unreachable because `jwt.verify`
throws instead of returning null — so both expired and tampered tokens
yield 500 there. The unreachable 400-branches mark the 500s as a slip
against the intended contract. -/

/-- Expired (but untampered) user-flow token for the C7 evaluation. -/
def c7TokUExp : Jwt UserWrapPayload :=
  { payload := { name := "A", email := "a@x.com", password := "p"
                 avatar := { public_id := "a", url := "u" }, id := some 1 }
    secret := "sec", expiresAt := 100, intact := true }

/-- Tampered user-flow token for the C7 evaluation. -/
def c7TokUBad : Jwt UserWrapPayload :=
  { payload := { name := "A", email := "a@x.com", password := "p"
                 avatar := { public_id := "a", url := "u" }, id := some 1 }
    secret := "sec", expiresAt := 1000000000, intact := false }

/-- Expired (but untampered) shop activation token for the C7 evaluation. -/
def c7TokSExp : Jwt ShopActPayload :=
  { payload := { id := 1, email := "s@x.com" }, secret := "sec", expiresAt := 100
    intact := true }

/-- Tampered shop activation token for the C7 evaluation. -/
def c7TokSBad : Jwt ShopActPayload :=
  { payload := { id := 1, email := "s@x.com" }, secret := "sec"
    expiresAt := 1000000000, intact := false }

/-- C7 evaluation at the failing inputs (current time 200, so the
expiresAt-100 tokens are expired): user activation and password reset map
both expired and tampered tokens to 500 with the library's message; shop
activation maps a tampered token to 400 "Invalid token" but an expired one
to 500 "jwt expired". The claimed uniform 400 InvalidToken holds only for
tampered tokens at the shop handler. -/
theorem c7_token_error_status_eval :
    userActivation (some c7TokUExp) ([] : List UserDoc) "sec" 200 1
      = (errResp 500 "jwt expired", ([] : List UserDoc)) ∧
    userActivation (some c7TokUBad) ([] : List UserDoc) "sec" 200 1
      = (errResp 500 "invalid signature", ([] : List UserDoc)) ∧
    resetPassword (some c7TokUExp) "newpass" ([] : List UserDoc) "sec" 200
      = (errResp 500 "jwt expired", ([] : List UserDoc)) ∧
    resetPassword (some c7TokUBad) "newpass" ([] : List UserDoc) "sec" 200
      = (errResp 500 "invalid signature", ([] : List UserDoc)) ∧
    shopActivation (some c7TokSExp) ([] : List ShopDoc) "sec" 200
      = (errResp 500 "jwt expired", ([] : List ShopDoc)) ∧
    shopActivation (some c7TokSBad) ([] : List ShopDoc) "sec" 200
      = (errResp 400 "Invalid token", ([] : List ShopDoc)) :=
  ⟨rfl, rfl, rfl, rfl, rfl, rfl⟩

/-!
C8. Spec claim: `/admin-all-users` and `/admin-all-sellers` return all
accounts of the type, ordered by creation timestamp descending, with no
pagination.
-/

/-- C8: both admin list handlers respond 200 with a list that is a
permutation of the whole collection (every account, none dropped — no
pagination) and is sorted by `createdAt` descending. -/
theorem c8_admin_lists_sorted_complete (udb : List UserDoc) (sdb : List ShopDoc) :
    (adminAllUsers udb).status = 200 ∧
    (adminAllUsers udb).success = true ∧
    (adminAllUsers udb).users = some (adminAllUsersList udb) ∧
    List.Perm (adminAllUsersList udb) udb ∧
    List.Sorted userByCreatedAtDesc (adminAllUsersList udb) ∧
    (adminAllSellers sdb).status = 200 ∧
    (adminAllSellers sdb).success = true ∧
    (adminAllSellers sdb).sellers = some (adminAllSellersList sdb) ∧
    List.Perm (adminAllSellersList sdb) sdb ∧
    List.Sorted shopByCreatedAtDesc (adminAllSellersList sdb) :=
  ⟨rfl, rfl, rfl,
   List.perm_insertionSort userByCreatedAtDesc udb,
   List.sorted_insertionSort userByCreatedAtDesc udb,
   rfl, rfl, rfl,
   List.perm_insertionSort shopByCreatedAtDesc sdb,
   List.sorted_insertionSort shopByCreatedAtDesc sdb⟩

/-!
C9. Implicit claim: `/create-shop` requires a verifiable activation token
before doing anything else — missing token fails 400 "Activation token is
missing"; a token whose embedded email differs from the body's email fails
400 "Invalid activation token"; the uniqueness check, avatar upload,
persistence and activation-email sending happen only after the token
checks pass.
-/

/-- C9: the `/create-shop` token gate. A missing token, a token failing
verification, and a verified token whose embedded email differs from the
request's email all leave the store untouched and perform no external
call; the first yields 400 "Activation token is missing", the mismatch
yields 400 "Invalid activation token", and a verification error yields
400 "Invalid token" for a signature failure and 500 otherwise. -/
theorem c9_create_shop_token_gate
    (r1 r2 r3 : CreateShopReq) (db1 db2 db3 : List ShopDoc)
    (secret : String) (now freshId : Nat)
    (tok2 tok3 : Jwt ShopActPayload) (p2 : ShopActPayload) (e3 : JwtError)
    (h1 : r1.activation_token = none)
    (h2a : r2.activation_token = some tok2)
    (h2b : jwtVerify tok2 secret now = .ok p2)
    (h2c : r2.email ≠ p2.email)
    (h3a : r3.activation_token = some tok3)
    (h3b : jwtVerify tok3 secret now = .error e3) :
    createShop r1 db1 secret now freshId
      = (errResp 400 "Activation token is missing", db1, []) ∧
    createShop r2 db2 secret now freshId
      = (errResp 400 "Invalid activation token", db2, []) ∧
    createShop r3 db3 secret now freshId
      = ((match e3 with
          | .jsonWebTokenError => errResp 400 "Invalid token"
          | .tokenExpiredError => errResp 500 (jwtErrorMessage .tokenExpiredError)),
         db3, []) := by
  have hne : (r2.email != p2.email) = true := by simp [h2c]
  refine ⟨?_, ?_, ?_⟩
  · simp [createShop, h1]
  · simp [createShop, h2a, h2b, hne]
  · cases e3 with
    | jsonWebTokenError => simp [createShop, h3a, h3b]
    | tokenExpiredError => simp [createShop, h3a, h3b]

/-- Token for the C9 witness's email-mismatch request. -/
def c9Tok : Jwt ShopActPayload :=
  { payload := { id := 1, email := "other@x.com" }, secret := "sec"
    expiresAt := 600000, intact := true }

/-- Tampered token for the C9 witness's verification-failure request. -/
def c9TokBad : Jwt ShopActPayload :=
  { payload := { id := 1, email := "s@x.com" }, secret := "sec"
    expiresAt := 600000, intact := false }

/-- `/create-shop` request with no token for the C9 witness. -/
def c9R1 : CreateShopReq :=
  { name := "S", email := "s@x.com", password := "p", avatar := "d", address := ""
    phoneNumber := "", zipCode := "", activation_token := none }

/-- `/create-shop` request whose token embeds a different email. -/
def c9R2 : CreateShopReq :=
  { c9R1 with activation_token := some c9Tok }

/-- `/create-shop` request carrying a tampered token. -/
def c9R3 : CreateShopReq :=
  { c9R1 with activation_token := some c9TokBad }

/-- C9 witness: the token gate instantiated on concrete requests against a
concrete store, which stays untouched with no external calls in all three
cases. -/
theorem c9_create_shop_token_gate_witness :
    createShop c9R1 [c6Shop] "sec" 0 10
      = (errResp 400 "Activation token is missing", [c6Shop], []) ∧
    createShop c9R2 [c6Shop] "sec" 0 10
      = (errResp 400 "Invalid activation token", [c6Shop], []) ∧
    createShop c9R3 [c6Shop] "sec" 0 10
      = ((match JwtError.jsonWebTokenError with
          | .jsonWebTokenError => errResp 400 "Invalid token"
          | .tokenExpiredError => errResp 500 (jwtErrorMessage .tokenExpiredError)),
         [c6Shop], []) :=
  c9_create_shop_token_gate c9R1 c9R2 c9R3 [c6Shop] [c6Shop] [c6Shop] "sec" 0 10
    c9Tok c9TokBad ⟨1, "other@x.com"⟩ JwtError.jsonWebTokenError
    rfl rfl rfl (by decide) rfl rfl

/-!
C10. Implicit claim: `/update-user-info` mutates the account matched by
the request body's email (after checking the body's password against that
account's stored hash), not the account identified by the session token;
a logged-in caller supplying another account's email and password mutates
that other account.
-/

/-- C10: the authenticated caller's identity is irrelevant to
`/update-user-info` — any two callers produce identical outcomes — and on
a password match the mutated document is the one `findOne` matched by the
body's email, saved by its own id, whatever the caller's id is. -/
theorem c10_update_user_info_by_body_email
    (callerA callerB : Nat) (email password phoneNumber name : String)
    (db : List UserDoc) (u : UserDoc)
    (h1 : findOneUserByEmail db email = some u)
    (h2 : comparePassword password u.password = true) :
    updateUserInfo callerA email password phoneNumber name db
      = updateUserInfo callerB email password phoneNumber name db ∧
    updateUserInfo callerA email password phoneNumber name db
      = ({ status := 200, success := true
           user := some { u with name := name, email := email, phoneNumber := phoneNumber } },
         saveUser db { u with name := name, email := email, phoneNumber := phoneNumber }) := by
  refine ⟨rfl, ?_⟩
  simp [updateUserInfo, h1, h2]

/-- Victim account for the C10 witness: its id (1) differs from the
authenticated caller's id (999). -/
def c10Victim : UserDoc :=
  { id := 1, name := "Vic", email := "vic@x.com", password := "hashed:p"
    avatar := { public_id := "a", url := "u" }, phoneNumber := "123", address := ""
    role := "user", createdAt := 0 }

/-- The victim account as mutated by the C10 witness's request body. -/
def c10Updated : UserDoc :=
  { c10Victim with name := "Mallory", email := "vic@x.com", phoneNumber := "555" }

/-- C10 witness: caller 999 (and equally caller 42) supplying account 1's
email and password mutates account 1. -/
theorem c10_update_user_info_by_body_email_witness :
    updateUserInfo 999 "vic@x.com" "p" "555" "Mallory" [c10Victim]
      = updateUserInfo 42 "vic@x.com" "p" "555" "Mallory" [c10Victim] ∧
    updateUserInfo 999 "vic@x.com" "p" "555" "Mallory" [c10Victim]
      = ({ status := 200, success := true, user := some c10Updated },
         saveUser [c10Victim] c10Updated) :=
  c10_update_user_info_by_body_email 999 42 "vic@x.com" "p" "555" "Mallory"
    [c10Victim] c10Victim rfl rfl

end Guriraline
